import Mathlib

/-!
Verification of the `DataTableColumn` component
(`src/data-table/lib/data-table-column.ts`) of maicol07/mwc-layout-grid.

The component is a Lit element.  We shallowly embed its reactive state, its
event handlers, and the Lit update cycle relevant to the claims:

* The reactive properties of the class become the fields of `ColumnState`.
* Each event handler (`onCheckboxClicked`, `onFilterTextFieldInput`,
  `onFilterTextFieldKeyDown`, `onSortButtonClicked`, the constructor's
  `click` listener) becomes a function `ColumnState → … → ColumnState × List Notification`,
  where the notification list records the `dispatchEvent` calls the handler
  performs, in order, with the exact event-type string from the source.
* Lit's `updated(changedProperties)` hook is embedded as `updatedHook`; Lit
  puts a property into `changedProperties` only when the assigned value
  differs from the current one (the default `hasChanged` is inequality), so
  an owner write of property `p` with value `v` runs a batch whose
  `changedProperties.has('sorted')` is true exactly when `p` is `sorted`
  and `v` differs from the old value.  The recompute inside `updated`
  assigns `withSortButton`, which can schedule one further batch; that
  batch has `changedProperties = {withSortButton}`, so `updated` does
  nothing more in it and the state below is the fixed point.
* The checkbox-slot wiring (`onCheckboxSlotChanged` together with the
  `checkbox` getter) is embedded over an abstract pool of checkbox elements
  identified by naturals, with DOM `addEventListener` semantics (adding the
  same listener twice to one target is a no-op).

The render functions `renderCheckbox`, `renderFilterTextField` and
`renderSlot` are embedded as functions returning the presence (and, for the
sort toggle, the bound attributes) of the markup they produce.
-/

/-- `type: '' | 'numeric' | 'checkbox'` (line 36 of the source).
`defaultType` stands for the empty string. -/
inductive ColumnType where
  | defaultType
  | numeric
  | checkbox
deriving DecidableEq, Repr

/-- The reactive properties of `DataTableColumn` with their initializers
(lines 36–65 of the source). -/
structure ColumnState where
  type : ColumnType := ColumnType.defaultType
  sortable : Bool := false
  sorted : Bool := false
  sortedDescending : Bool := false
  withSortButton : Bool := false
  filterable : Bool := false
  filterTextFieldLabel : String := "Filter"
  filterCaseSensitive : Bool := false
deriving DecidableEq, Repr

/-- The state of a freshly constructed `DataTableColumn`. -/
def initialState : ColumnState := {}

/-- What a JavaScript checkbox can report as its `checked` value before the
`?? false` normalization: `undefined`, `null`, or an actual boolean. -/
inductive ReportedChecked where
  | undef
  | null
  | val (b : Bool)
deriving DecidableEq, Repr

/-- JavaScript nullish coalescing `x ?? d`: `undefined` and `null` fall back
to the default, a real boolean passes through. -/
def nullishCoalesce (r : ReportedChecked) (d : Bool) : Bool :=
  match r with
  | ReportedChecked.undef => d
  | ReportedChecked.null => d
  | ReportedChecked.val b => b

/-- The detail payloads of the four `CustomEvent`s the component dispatches.
The `column` field of the filter and sort payloads and the `field` reference
are always the component itself resp. the event target, so they carry no
extra information in a single-component model and are omitted here. -/
inductive NotificationDetail where
  | checkedDetail (checked : Bool)
  | filterDetail (text : String) (caseSensitive : Bool)
  | keydownDetail (key : String)
  | sortDetail (isDescending : Bool)
deriving DecidableEq, Repr

/-- A dispatched `CustomEvent`: its type string exactly as written in the
source, plus its detail. -/
structure Notification where
  name : String
  detail : NotificationDetail
deriving DecidableEq, Repr

/-- Lit's `updated(_changedProperties)` hook, lines 227–232:
```
if (_changedProperties.has('sorted')) {
  this.withSortButton = this.sortable && this.sorted;
}
```
`changedSorted` is whether `'sorted'` is in the batch's changed-property
map.  It contains no `dispatchEvent`, hence the empty notification list. -/
def updatedHook (s : ColumnState) (changedSorted : Bool) :
    ColumnState × List Notification :=
  (if changedSorted then { s with withSortButton := s.sortable && s.sorted } else s, [])

/-- Owner write `column.sorted = v` followed by the Lit update batch it
triggers.  Lit records `sorted` as changed only when `v` differs from the
current value; otherwise the batch (if any runs at all) has
`changedProperties.has('sorted') = false`, and `updated` leaves the state
alone either way. -/
def setSorted (s : ColumnState) (v : Bool) : ColumnState × List Notification :=
  updatedHook { s with sorted := v } (s.sorted != v)

/-- The `click` listener installed in the constructor, lines 82–87:
`this.withSortButton = !this.withSortButton;`, followed by the update batch
that assignment triggers (whose changed set is `{withSortButton}`, so
`updated` recomputes nothing).  No `dispatchEvent` occurs. -/
def headerClickListener (s : ColumnState) : ColumnState × List Notification :=
  updatedHook { s with withSortButton := !s.withSortButton } false

/-- Where a click gesture originates inside the header cell. -/
inductive ClickOrigin where
  | headerBody
  | sortToggle
deriving DecidableEq, Repr

/-- The inline handler on the sort toggle, line 137:
`@click=${(e: PointerEvent) => e.stopPropagation()}`.  It reports whether
propagation towards the host element is stopped. -/
def sortToggleClickStopsPropagation (o : ClickOrigin) : Bool :=
  match o with
  | ClickOrigin.sortToggle => true
  | ClickOrigin.headerBody => false

/-- A full click gesture dispatched through the component: if the click
originates on the sort-toggle control its `stopPropagation` call prevents the
event from reaching the host's `click` listener; otherwise that listener
runs once. -/
def dispatchClick (s : ColumnState) (o : ClickOrigin) :
    ColumnState × List Notification :=
  if sortToggleClickStopsPropagation o then (s, []) else headerClickListener s

/-- `onCheckboxClicked`, lines 156–169: dispatches
`new CustomEvent('checked', { detail: { checked: checkbox.checked ?? false } })`
and touches no state.  It is total: no input makes it fail. -/
def onCheckboxClicked (s : ColumnState) (reported : ReportedChecked) :
    ColumnState × List Notification :=
  (s, [{ name := "checked",
         detail := NotificationDetail.checkedDetail (nullishCoalesce reported false) }])

/-- `onFilterTextFieldInput`, lines 176–192: dispatches
`new CustomEvent('filter', { detail: { field, text, column, caseSensitive: this.filterCaseSensitive } })`. -/
def onFilterTextFieldInput (s : ColumnState) (text : String) :
    ColumnState × List Notification :=
  (s, [{ name := "filter",
         detail := NotificationDetail.filterDetail text s.filterCaseSensitive }])

/-- `onFilterTextFieldKeyDown`, lines 194–209: dispatches
`new CustomEvent('keydown', { detail: { field, key: e.key, column } })`. -/
def onFilterTextFieldKeyDown (s : ColumnState) (key : String) :
    ColumnState × List Notification :=
  (s, [{ name := "keydown",
         detail := NotificationDetail.keydownDetail key }])

/-- `onSortButtonClicked`, lines 211–225: first
`this.sortedDescending = e.detail.selected;`, then dispatches
`new CustomEvent('sort', { detail: { column: this, isDescending: this.sortedDescending } })`.
The assignment's own update batch changes only `sortedDescending`, so
`updated` recomputes nothing. -/
def onSortButtonClicked (s : ColumnState) (selected : Bool) :
    ColumnState × List Notification :=
  let s1 := { s with sortedDescending := selected }
  (s1, [{ name := "sort",
          detail := NotificationDetail.sortDetail s1.sortedDescending }])

/-- `renderCheckbox`, lines 97–109: produces the checkbox slot markup iff
`this.type === 'checkbox'`, and the empty string otherwise.  `true` means
the affordance is rendered. -/
def renderCheckbox (s : ColumnState) : Bool :=
  s.type == ColumnType.checkbox

/-- `renderFilterTextField`, lines 111–128: produces the filter markup iff
`this.filterable && this.type !== 'checkbox'`, and the empty string
otherwise. -/
def renderFilterTextField (s : ColumnState) : Bool :=
  s.filterable && !(s.type == ColumnType.checkbox)

/-- The attribute bindings on the `md-standard-icon-button-toggle` produced
by `renderSlot`: `?selected=${this.sortedDescending}` and
`?hidden=${!this.withSortButton}` (lines 135 and 138). -/
structure SortToggleRender where
  selected : Bool
  hidden : Bool
deriving DecidableEq, Repr

/-- `renderSlot`, lines 130–154: iff `this.sortable` it renders the wrapper
containing the sort toggle (with the bindings above); otherwise only a bare
default slot, with no sort affordance. -/
def renderSlot (s : ColumnState) : Option SortToggleRender :=
  if s.sortable then some { selected := s.sortedDescending, hidden := !s.withSortButton }
  else none

/-! ## Checkbox-slot wiring

Checkbox elements are identified by naturals.  `listeners` is the set of
elements that currently have `this.onCheckboxClicked` attached as a
`change` listener; per DOM semantics `addEventListener` with an
already-attached identical listener is a no-op, and `removeEventListener`
of an absent listener is a no-op. -/

/-- The `checkbox` getter, lines 77–80: `this.checkboxSlotElements?.[0]`,
the first element currently assigned to the `checkbox` slot. -/
def effectiveCheckbox (slotContents : List Nat) : Option Nat :=
  slotContents.head?

/-- DOM `removeEventListener('change', this.onCheckboxClicked)` on an
optional target (`?.` in the source): no-op when the target is absent or
the listener is not attached. -/
def removeChangeListener (listeners : List Nat) (target : Option Nat) : List Nat :=
  match target with
  | none => listeners
  | some c => listeners.erase c

/-- DOM `addEventListener('change', this.onCheckboxClicked)` on an optional
target: no-op when the target is absent or the listener is already
attached. -/
def addChangeListener (listeners : List Nat) (target : Option Nat) : List Nat :=
  match target with
  | none => listeners
  | some c => if c ∈ listeners then listeners else c :: listeners

/-- `onCheckboxSlotChanged`, lines 171–174:
```
this.checkbox?.removeEventListener('change', this.onCheckboxClicked);
this.checkbox?.addEventListener('change', this.onCheckboxClicked);
```
Both lines read `this.checkbox` at call time, i.e. the checkbox currently
in the slot (after the slot change), not the one that was there before. -/
def onCheckboxSlotChanged (slotContents : List Nat) (listeners : List Nat) :
    List Nat :=
  addChangeListener
    (removeChangeListener listeners (effectiveCheckbox slotContents))
    (effectiveCheckbox slotContents)

/-- A `change` event fired by checkbox element `c` invokes the component's
listener iff the listener is attached to `c`. -/
def changeEventFiresListener (listeners : List Nat) (c : Nat) : Bool :=
  c ∈ listeners

/-! ## Reachable states

The operations an owner/user can drive the column through: owner writes to
each reactive property (each one a Lit batch of its own), user clicks on
the header (dispatched through `dispatchClick`), and sort-toggle
change events.  Checkbox and filter-field events keep the state unchanged
but are included for completeness. -/

/-- One externally triggerable operation on the column. -/
inductive Op where
  | click (o : ClickOrigin)
  | sortToggleChange (selected : Bool)
  | checkboxChange (reported : ReportedChecked)
  | filterInput (text : String)
  | filterKeyDown (key : String)
  | setType (t : ColumnType)
  | setSortable (v : Bool)
  | setSorted (v : Bool)
  | setSortedDescending (v : Bool)
  | setWithSortButton (v : Bool)
  | setFilterable (v : Bool)
  | setFilterTextFieldLabel (v : String)
  | setFilterCaseSensitive (v : Bool)

/-- Running one operation: the resulting state and the notifications it
dispatches.  Every owner property write runs its Lit batch; only a write
that actually changes `sorted` puts `'sorted'` into the changed set, so
only `setSorted` can trigger the `updated` recompute. -/
def runOp (s : ColumnState) (op : Op) : ColumnState × List Notification :=
  match op with
  | Op.click o => dispatchClick s o
  | Op.sortToggleChange v => onSortButtonClicked s v
  | Op.checkboxChange r => onCheckboxClicked s r
  | Op.filterInput t => onFilterTextFieldInput s t
  | Op.filterKeyDown k => onFilterTextFieldKeyDown s k
  | Op.setType t => updatedHook { s with type := t } false
  | Op.setSortable v => updatedHook { s with sortable := v } false
  | Op.setSorted v => setSorted s v
  | Op.setSortedDescending v => updatedHook { s with sortedDescending := v } false
  | Op.setWithSortButton v => updatedHook { s with withSortButton := v } false
  | Op.setFilterable v => updatedHook { s with filterable := v } false
  | Op.setFilterTextFieldLabel v => updatedHook { s with filterTextFieldLabel := v } false
  | Op.setFilterCaseSensitive v => updatedHook { s with filterCaseSensitive := v } false

/-- States reachable from the freshly constructed column by any sequence of
operations. -/
inductive Reachable : ColumnState → Prop where
  | init : Reachable initialState
  | next (s : ColumnState) (op : Op) : Reachable s → Reachable (runOp s op).1

/-! ## Theorems for the claims -/

/-- The state after one header-body click on a freshly constructed column:
`withSortButton` has been toggled to `true` while `sortable` is still
`false`. -/
def clickedOnce : ColumnState :=
  (runOp initialState (Op.click ClickOrigin.headerBody)).1

/-- Claim C1, counterexample: the state reached from the initial state by a
single header-body click is reachable, has `withSortButton = true`, and has
`sortable = false` — so the invariant "withSortButton = true implies
sortable = true over all reachable states" is false: the constructor's
click listener toggles `withSortButton` unconditionally, without consulting
`sortable`. -/
theorem headerClick_breaks_sortButton_invariant :
    Reachable clickedOnce ∧ clickedOnce.withSortButton = true ∧
      clickedOnce.sortable = false :=
  ⟨Reachable.next initialState (Op.click ClickOrigin.headerBody) Reachable.init,
    by decide, by decide⟩

/-- Claim C1, amended: the implication `withSortButton = true → sortable = true`
does hold right after any property batch in which `sorted` actually changed,
because `updated` then recomputes `withSortButton := sortable && sorted`;
it is only header clicks (and direct `withSortButton` writes) that can
break it. -/
theorem setSorted_restores_sortButton_invariant (s : ColumnState) (v : Bool)
    (h : s.sorted ≠ v) :
    (setSorted s v).1.withSortButton = true → (setSorted s v).1.sortable = true := by
  have hb : (s.sorted != v) = true := by
    cases hs : s.sorted <;> cases hv : v <;> simp_all
  have hrw : (setSorted s v).1 =
      { s with sorted := v, withSortButton := s.sortable && v } := by
    simp [setSorted, updatedHook, hb]
  rw [hrw]
  intro hw
  exact ((Bool.and_eq_true _ _).mp hw).1

/-- Witness for the amended claim C1 at the concrete state with
`sortable := true` and `v := true`. -/
theorem setSorted_restores_sortButton_invariant_witness :
    ({ initialState with sortable := true } : ColumnState).sorted ≠ true ∧
      ((setSorted { initialState with sortable := true } true).1.withSortButton = true →
        (setSorted { initialState with sortable := true } true).1.sortable = true) :=
  ⟨by decide, setSorted_restores_sortButton_invariant _ true (by decide)⟩

/-- Claim C2, counterexample: in the reachable state `clickedOnce`
(`sortable = false`, `sorted = false`, `withSortButton = true`), the owner
writes `sorted = false` — the value it already has.  Lit then records no
change to `sorted`, `updated` performs no recompute, and the batch ends
with `withSortButton = true`, which differs from
`sortable AND sorted = false`.  The claim's "including setting it to the
value it already has" case is therefore false. -/
theorem setSorted_same_value_skips_recompute :
    Reachable clickedOnce ∧
      (setSorted clickedOnce false).1.withSortButton = true ∧
      (clickedOnce.sortable && false) = false :=
  ⟨Reachable.next initialState (Op.click ClickOrigin.headerBody) Reachable.init,
    by decide, by decide⟩

/-- Claim C2, amended: whenever the owner writes a value of `sorted` that
differs from the current one, the property batch ends with
`withSortButton = sortable AND sorted`, the recompute running once in the
batch's `updated` hook; a write of the unchanged value triggers no
recompute. -/
theorem setSorted_changed_recomputes (s : ColumnState) (v : Bool)
    (h : s.sorted ≠ v) :
    (setSorted s v).1.withSortButton = (s.sortable && v) := by
  have hb : (s.sorted != v) = true := by
    cases hs : s.sorted <;> cases hv : v <;> simp_all
  simp [setSorted, updatedHook, hb]

/-- Witness for the amended claim C2 at the initial state and `v := true`. -/
theorem setSorted_changed_recomputes_witness :
    initialState.sorted ≠ true ∧
      (setSorted initialState true).1.withSortButton = (initialState.sortable && true) :=
  ⟨by decide, setSorted_changed_recomputes initialState true (by decide)⟩

/-- Claim C3, counterexample: the event-type strings the four handlers
actually dispatch are "checked", "filter", "keydown" and "sort" — none of
them matches the names the claim lists ("checked-changed", "filter-input",
"filter-keydown", "sort-changed"). -/
theorem eventNames_differ_from_claim :
    (onCheckboxClicked initialState ReportedChecked.null).2.map Notification.name
        = ["checked"] ∧ "checked" ≠ "checked-changed" ∧
    (onFilterTextFieldInput initialState "a").2.map Notification.name
        = ["filter"] ∧ "filter" ≠ "filter-input" ∧
    (onFilterTextFieldKeyDown initialState "Enter").2.map Notification.name
        = ["keydown"] ∧ "keydown" ≠ "filter-keydown" ∧
    (onSortButtonClicked initialState true).2.map Notification.name
        = ["sort"] ∧ "sort" ≠ "sort-changed" := by
  refine ⟨rfl, by decide, rfl, by decide, rfl, by decide, rfl, by decide⟩

/-- Claim C3, amended: for each trigger (checkbox change, filter-field
input, filter-field keydown, sort-toggle change) the component dispatches
exactly one event, whose type string is respectively "checked", "filter",
"keydown" and "sort". -/
theorem dispatched_event_types (s : ColumnState) (r : ReportedChecked)
    (t k : String) (p : Bool) :
    (onCheckboxClicked s r).2.map Notification.name = ["checked"] ∧
    (onFilterTextFieldInput s t).2.map Notification.name = ["filter"] ∧
    (onFilterTextFieldKeyDown s k).2.map Notification.name = ["keydown"] ∧
    (onSortButtonClicked s p).2.map Notification.name = ["sort"] :=
  ⟨rfl, rfl, rfl, rfl⟩

/-- Claim C4: for every state, the checkbox affordance is rendered iff
`type = checkbox`, the filter affordance iff `filterable` and
`type ≠ checkbox`, and the sort affordance iff `sortable`; the omitted
branches render as empty ('' resp. a bare slot without the toggle). -/
theorem render_conditions (s : ColumnState) :
    (renderCheckbox s = true ↔ s.type = ColumnType.checkbox) ∧
    (renderFilterTextField s = true ↔ (s.filterable = true ∧ s.type ≠ ColumnType.checkbox)) ∧
    ((renderSlot s).isSome = true ↔ s.sortable = true) := by
  refine ⟨?_, ?_, ?_⟩
  · simp [renderCheckbox]
  · simp [renderFilterTextField]
  · cases hs : s.sortable <;> simp [renderSlot, hs]

/-- Claim C5: a click originating on the header body runs the constructor's
listener exactly once, setting `withSortButton` to its negation (and
emitting nothing); a click originating on the sort-toggle control is
stopped by the toggle's stopPropagation handler, so the header-click path
never runs and the state is untouched. -/
theorem headerClick_toggles_toggleClick_suppressed (s : ColumnState) :
    (dispatchClick s ClickOrigin.headerBody).1.withSortButton = !s.withSortButton ∧
    (dispatchClick s ClickOrigin.headerBody).2 = [] ∧
    dispatchClick s ClickOrigin.sortToggle = (s, []) := by
  refine ⟨?_, rfl, rfl⟩
  simp [dispatchClick, sortToggleClickStopsPropagation, headerClickListener, updatedHook]

/-- Claim C6, counterexample: the listener is attached to checkbox 1; the
slot content is replaced so that checkbox 2 is the new effective checkbox;
the slot-change handler runs.  `this.checkbox` already resolves to the new
checkbox 2 in both lines of the handler, so the listener is removed from
and re-added to checkbox 2 while checkbox 1 — the prior effective checkbox
— keeps its listener, and a change event on the old element still fires
the listener.  This refutes "removed from the prior effective checkbox"
and "the old element produces no duplicate notifications". -/
theorem slotChange_keeps_old_listener :
    onCheckboxSlotChanged [2] [1] = [2, 1] ∧
      changeEventFiresListener (onCheckboxSlotChanged [2] [1]) 1 = true := by
  refine ⟨by decide, by decide⟩

/-- Claim C6, amended: on every slot-content change with an effective
checkbox present, the handler removes and re-attaches the listener on the
*current* effective checkbox, so that checkbox carries the listener exactly
once (repeated slot-change notifications with the same checkbox do not
stack listeners); but the listener is not removed from any other element,
so a replaced prior checkbox retains its listener. -/
theorem slotChange_wires_current_checkbox (slotContents listeners : List Nat)
    (c : Nat) (hnd : listeners.Nodup)
    (h : effectiveCheckbox slotContents = some c) :
    (onCheckboxSlotChanged slotContents listeners).Nodup ∧
    (onCheckboxSlotChanged slotContents listeners).count c = 1 ∧
    ∀ d ∈ listeners, d ≠ c → d ∈ onCheckboxSlotChanged slotContents listeners := by
  have hne : c ∉ listeners.erase c := hnd.not_mem_erase
  have hres : onCheckboxSlotChanged slotContents listeners = c :: listeners.erase c := by
    simp [onCheckboxSlotChanged, removeChangeListener, addChangeListener, h, hne]
  rw [hres]
  refine ⟨List.nodup_cons.mpr ⟨hne, hnd.erase c⟩, ?_, ?_⟩
  · exact List.count_eq_one_of_mem (List.nodup_cons.mpr ⟨hne, hnd.erase c⟩)
      (List.mem_cons_self c _)
  · intro d hd hdc
    exact List.mem_cons_of_mem c ((List.mem_erase_of_ne hdc).mpr hd)

/-- Witness for the amended claim C6 with listener on checkbox 1 and the
slot now holding checkbox 2. -/
theorem slotChange_wires_current_checkbox_witness :
    ([1] : List Nat).Nodup ∧ effectiveCheckbox [2] = some 2 ∧
      ((onCheckboxSlotChanged [2] [1]).Nodup ∧
       (onCheckboxSlotChanged [2] [1]).count 2 = 1 ∧
       ∀ d ∈ ([1] : List Nat), d ≠ 2 → d ∈ onCheckboxSlotChanged [2] [1]) :=
  ⟨by decide, by decide,
    slotChange_wires_current_checkbox [2] [1] 2 (by decide) (by decide)⟩

/-- Claim C7: on a sort-toggle pressed-state change with new value p, the
handler first writes `sortedDescending := p` and then dispatches exactly
one notification, whose detail carries `isDescending` equal to the
component's `sortedDescending` at dispatch time (and whose column field is
the component itself). -/
theorem sortToggleChange_updates_then_emits (s : ColumnState) (p : Bool) :
    (onSortButtonClicked s p).1.sortedDescending = p ∧
    (onSortButtonClicked s p).2 =
      [{ name := "sort",
         detail := NotificationDetail.sortDetail
           ((onSortButtonClicked s p).1.sortedDescending) }] :=
  ⟨rfl, rfl⟩

/-- Claim C8: an owner write to `sorted` — with no user/widget event — runs
only the `updated` hook, which contains no dispatch: the write emits no
notification of any kind, whatever the prior state and written value. -/
theorem setSorted_emits_nothing (s : ColumnState) (v : Bool) :
    (setSorted s v).2 = [] :=
  rfl

/-- Claim C9: on a checkbox change event, a reported `undefined` or `null`
checked value is normalized to `false` by the `?? false` coalescing, a real
boolean passes through unchanged, and the handler is a total function — no
error can escape this path. -/
theorem checkbox_change_normalizes_missing (s : ColumnState) (b : Bool) :
    (onCheckboxClicked s ReportedChecked.undef).2 =
      [{ name := "checked", detail := NotificationDetail.checkedDetail false }] ∧
    (onCheckboxClicked s ReportedChecked.null).2 =
      [{ name := "checked", detail := NotificationDetail.checkedDetail false }] ∧
    (onCheckboxClicked s (ReportedChecked.val b)).2 =
      [{ name := "checked", detail := NotificationDetail.checkedDetail b }] :=
  ⟨rfl, rfl, rfl⟩

/-- Claim C10: the header click listener flips `withSortButton` and leaves
every other property — type, sortable, sorted, sortedDescending,
filterable, filterCaseSensitive, filterTextFieldLabel — unchanged, and
emits no notification. -/
theorem headerClick_frame (s : ColumnState) :
    (headerClickListener s).1.withSortButton = !s.withSortButton ∧
    (headerClickListener s).1.type = s.type ∧
    (headerClickListener s).1.sortable = s.sortable ∧
    (headerClickListener s).1.sorted = s.sorted ∧
    (headerClickListener s).1.sortedDescending = s.sortedDescending ∧
    (headerClickListener s).1.filterable = s.filterable ∧
    (headerClickListener s).1.filterCaseSensitive = s.filterCaseSensitive ∧
    (headerClickListener s).1.filterTextFieldLabel = s.filterTextFieldLabel ∧
    (headerClickListener s).2 = [] :=
  ⟨rfl, rfl, rfl, rfl, rfl, rfl, rfl, rfl, rfl⟩
